import Mathlib

set_option autoImplicit false

/-!
Verification of the k8s-alert-rule-operator reconcilers.

This file is a shallow embedding of the Go sources of the repository:

* `internal/controller/alertrule_controller.go` — the rule-group variant of
  `AlertRuleReconciler`, which renders a `PrometheusRule` object from an
  `AlertRule` resource (namespace `PrometheusVariant` below);
* `internal/controller/deployment_controller.go` — `DeploymentReconciler`,
  which derives a default `AlertRule` per `Deployment` workload
  (namespace `DeploymentReconciler` below);
* the configuration-blob variant of `AlertRuleReconciler`, which renders a
  Prometheus rules YAML string into a `ConfigMap`
  (namespace `ConfigMapVariant` below);
* the `api/v1` type declarations for `AlertRuleSpec`, `DeploymentReference`,
  `AlertRuleStatus` and `AlertRule`.

Modelling conventions:

* Go `map[string]string` values are modelled by their lookup function
  `String → Option String` (`LabelMap`).  A `nil` map and an empty map both
  look up to `none` everywhere; Go map iteration order is irrelevant because
  every map-to-map copy loop in the sources produces a map again, and a map is
  exactly its lookup function.
* The Kubernetes object store is modelled as a per-kind partial function from
  (namespace, name) keys to objects (`Store`).  `Get` is application, `Create`
  and `Update` are `Store.put`, `Delete` is `Store.del`; a `none` lookup is
  the `IsNotFound` case.  Transient store failures (conflicts, timeouts) are
  environment nondeterminism outside the embedding, so the corresponding
  error-propagation branches of the Go code have no model counterpart; the
  not-found branches, which the claims are about, are modelled exactly.
* `metav1.Now()` is modelled by threading an explicit `now : Nat` parameter
  into every reconcile invocation; `metav1.Time` values are `Option Nat` with
  `none` for the zero time (`IsZero`).
* Fallible Go functions returning `error` become `Except String` values.
-/

/-- Go `map[string]string`, modelled by its lookup function.  A `nil` map is
the everywhere-`none` function. -/
def LabelMap : Type := String → Option String

/-- The empty (or `nil`) Go string map. -/
def LabelMap.empty : LabelMap := fun _ => none

/-- The Go loop `for k, v := range user { base[k] = v }`: overlay the entries
of `user` on top of `base`.  As a mapping, a key takes the `user` value when
`user` has the key and the `base` value otherwise (the user value wins on a
collision). -/
def mergeLabels (base user : LabelMap) : LabelMap :=
  fun k =>
    match user k with
    | some v => some v
    | none => base k

/-- `metav1.OwnerReference` restricted to the fields the sources set. -/
structure OwnerReference where
  apiVersion : String
  kind : String
  name : String
  uid : String
  controller : Bool

/-- `metav1.Condition` restricted to the fields the sources use.  `status` is
the string `"True"`, `"False"` or `"Unknown"`; `lastTransitionTime` is the
model clock; `observedGeneration` mirrors `metav1.Condition.ObservedGeneration`. -/
structure Condition where
  condType : String
  status : String
  reason : String
  message : String
  lastTransitionTime : Nat
  observedGeneration : Int

/-- `api/v1.DeploymentReference`: a non-owning {namespace, name} pointer. -/
structure DeploymentReference where
  ns : String
  name : String
deriving DecidableEq

/-- `api/v1.AlertRuleSpec` (the fixed-field shape). -/
structure AlertRuleSpec where
  alert : String
  expr : String
  severity : String
  For : String
  labels : LabelMap
  annotations : Option LabelMap
  deploymentRef : Option DeploymentReference

/-- `metav1.ObjectMeta` restricted to the fields the sources read or write. -/
structure ObjectMeta where
  name : String
  ns : String
  uid : String
  labels : LabelMap
  deletionTimestamp : Option Nat
  generation : Int
  ownerReferences : List OwnerReference

/-- `api/v1.AlertRule`: TypeMeta fields, object metadata, spec and the status
condition list. -/
structure AlertRule where
  apiVersion : String
  kind : String
  meta : ObjectMeta
  spec : AlertRuleSpec
  status : List Condition

/-- `appsv1.Deployment` restricted to the fields `DeploymentReconciler` reads. -/
structure Deployment where
  apiVersion : String
  kind : String
  meta : ObjectMeta

/-- One Kubernetes object store for a single resource kind: a partial map from
(namespace, name) to the stored object. -/
def Store (α : Type) : Type := String → String → Option α

/-- `Create`/`Update`: write object `v` at key (`ns`, `name`). -/
def Store.put {α : Type} (s : Store α) (ns name : String) (v : α) : Store α :=
  fun x y => if x = ns ∧ y = name then some v else s x y

/-- `Delete`: remove the object at key (`ns`, `name`). -/
def Store.del {α : Type} (s : Store α) (ns name : String) : Store α :=
  fun x y => if x = ns ∧ y = name then none else s x y

/-- The shared condition-upsert loop of both `updateStatus` implementations:
scan the ordered list for the first condition with the same `type`, replace it
in place, and append when no match exists. -/
def upsertCondition : List Condition → Condition → List Condition
  | [], c => [c]
  | x :: xs, c =>
    if x.condType = c.condType then c :: xs else x :: upsertCondition xs c

/-- The stamping both `updateStatus` implementations perform before the
upsert: `LastTransitionTime = metav1.Now()` and
`ObservedGeneration = alertRule.Generation`. -/
def stampCondition (now : Nat) (gen : Int) (c : Condition) : Condition :=
  { c with lastTransitionTime := now, observedGeneration := gen }

/-- A single rule entry of a `PrometheusRule` group, i.e. the
`map[string]interface{}` built by `buildPrometheusRule`.  An absent optional
key of the Go map is `none`. -/
structure PrometheusRuleEntry where
  alert : String
  expr : String
  For : Option String
  labels : LabelMap
  annotations : Option LabelMap

/-- The rendered `PrometheusRule` unstructured object
(`internal/controller/alertrule_controller.go`).  The spec of the object is
`{groups: [{name: groupName, rules: rules}]}`; `groupName` and the singleton
`rules` list are stored structurally. -/
structure PrometheusRule where
  name : String
  ns : String
  uid : String
  resourceVersion : String
  labels : LabelMap
  ownerReferences : List OwnerReference
  groupName : String
  rules : List PrometheusRuleEntry

namespace PrometheusVariant

/-- The cluster state the rule-group `AlertRuleReconciler` touches. -/
structure Cluster where
  alertRules : Store AlertRule
  prometheusRules : Store PrometheusRule

/-- The built-in labels set on every rendered `PrometheusRule`
(`createPrometheusRule`, labels literal). -/
def builtinLabels : LabelMap :=
  fun k =>
    if k = "managed-by" then some "alert-rule-operator"
    else if k = "release" then some "monitoring"
    else none

/-- `buildPrometheusRule`: the single rule entry rendered from an `AlertRule`.
`for` is added only when `Spec.For` is non-empty; the labels map starts from
`{"severity": Spec.Severity}` and is overlaid with `Spec.Labels`; the
annotations map is a copy of `Spec.Annotations` when that map is non-nil. -/
def buildPrometheusRule (alertRule : AlertRule) : PrometheusRuleEntry :=
  { alert := alertRule.spec.alert
    expr := alertRule.spec.expr
    For := if alertRule.spec.For = "" then none else some alertRule.spec.For
    labels :=
      mergeLabels (fun k => if k = "severity" then some alertRule.spec.severity else none)
        alertRule.spec.labels
    annotations := alertRule.spec.annotations }

/-- `createPrometheusRule`: the `PrometheusRule` object rendered from an
`AlertRule` — same name and namespace, built-in labels overlaid with the
`AlertRule`'s metadata labels, a controller-owner reference to the
`AlertRule`, and a single group `<name>-group` holding one rule entry. -/
def createPrometheusRule (alertRule : AlertRule) : PrometheusRule :=
  { name := alertRule.meta.name
    ns := alertRule.meta.ns
    uid := ""
    resourceVersion := ""
    labels := mergeLabels builtinLabels alertRule.meta.labels
    ownerReferences :=
      [{ apiVersion := alertRule.apiVersion, kind := alertRule.kind,
         name := alertRule.meta.name, uid := alertRule.meta.uid, controller := true }]
    groupName := alertRule.meta.name ++ "-group"
    rules := [buildPrometheusRule alertRule] }

/-- `deletePrometheusRule`: fetch the `PrometheusRule` named after the absent
`AlertRule`; a not-found fetch is success without any write, otherwise delete
it. -/
def deletePrometheusRule (c : Cluster) (ns alertRuleName : String) :
    Cluster × Except String Unit :=
  match c.prometheusRules ns alertRuleName with
  | none => (c, Except.ok ())
  | some _ =>
    ({ c with prometheusRules := c.prometheusRules.del ns alertRuleName }, Except.ok ())

/-- `reconcilePrometheusRule`: render the desired `PrometheusRule`; create it
when absent, otherwise copy the existing object's UID and resource version
forward and issue a full-object update. -/
def reconcilePrometheusRule (c : Cluster) (alertRule : AlertRule) : Cluster :=
  let desired := createPrometheusRule alertRule
  match c.prometheusRules alertRule.meta.ns alertRule.meta.name with
  | none =>
    { c with prometheusRules := c.prometheusRules.put desired.ns desired.name desired }
  | some existing =>
    let updated := { desired with uid := existing.uid, resourceVersion := existing.resourceVersion }
    { c with prometheusRules := c.prometheusRules.put updated.ns updated.name updated }

/-- `updateStatus` of the rule-group variant: re-fetch the `PrometheusRule`,
build a `PrometheusRuleReady` condition stamped with the current time and the
resource's generation (`True`/`PrometheusRuleCreated` when present,
`False`/`PrometheusRuleNotFound` when absent), upsert it into the condition
list and persist the status. -/
def updateStatus (now : Nat) (c : Cluster) (alertRule : AlertRule) : Cluster :=
  let cond : Condition :=
    match c.prometheusRules alertRule.meta.ns alertRule.meta.name with
    | some _ =>
      { condType := "PrometheusRuleReady", status := "True",
        reason := "PrometheusRuleCreated",
        message := "PrometheusRule has been successfully created",
        lastTransitionTime := now, observedGeneration := alertRule.meta.generation }
    | none =>
      { condType := "PrometheusRuleReady", status := "False",
        reason := "PrometheusRuleNotFound", message := "PrometheusRule not found",
        lastTransitionTime := now, observedGeneration := alertRule.meta.generation }
  let updated := { alertRule with status := upsertCondition alertRule.status cond }
  { c with alertRules := c.alertRules.put updated.meta.ns updated.meta.name updated }

/-- `Reconcile` of the rule-group `AlertRuleReconciler`: a not-found
`AlertRule` runs the deletion fallback; an `AlertRule` being deleted
(non-zero deletion timestamp) is skipped; otherwise the `PrometheusRule` is
upserted and the status persisted. -/
def Reconcile (now : Nat) (c : Cluster) (reqNs reqName : String) :
    Cluster × Except String Unit :=
  match c.alertRules reqNs reqName with
  | none => deletePrometheusRule c reqNs reqName
  | some alertRule =>
    if alertRule.meta.deletionTimestamp.isSome then (c, Except.ok ())
    else
      let c1 := reconcilePrometheusRule c alertRule
      let c2 := updateStatus now c1 alertRule
      (c2, Except.ok ())

end PrometheusVariant

namespace DeploymentReconciler

/-- The cluster state `DeploymentReconciler` touches. -/
structure Cluster where
  deployments : Store Deployment
  alertRules : Store AlertRule

/-- The drift test of `Reconcile`: the existing `AlertRule`'s
`Spec.DeploymentRef` is nil, or its namespace or name differs from the
workload's. -/
def refDrifted (deployment : Deployment) (alertRule : AlertRule) : Bool :=
  match alertRule.spec.deploymentRef with
  | none => true
  | some ref => ref.ns != deployment.meta.ns || ref.name != deployment.meta.name

/-- `createDefaultAlertRule`: the default `AlertRule` synthesized for a
workload.  The trailing `ctrl.SetControllerReference` call re-asserts the same
controller-owner reference that the object metadata already carries. -/
def createDefaultAlertRule (deployment : Deployment) (name : String) : AlertRule :=
  { apiVersion := ""
    kind := ""
    meta :=
      { name := name
        ns := deployment.meta.ns
        uid := ""
        labels := fun k =>
          if k = "app" then some deployment.meta.name
          else if k = "managed-by" then some "alert-rule-operator"
          else if k = "deployment.kubernetes.io/name" then some deployment.meta.name
          else none
        deletionTimestamp := none
        generation := 0
        ownerReferences :=
          [{ apiVersion := deployment.apiVersion, kind := deployment.kind,
             name := deployment.meta.name, uid := deployment.meta.uid,
             controller := true }] }
    spec :=
      { alert := deployment.meta.name ++ "PodDown"
        expr := "up\x7bjob=\"" ++ deployment.meta.name ++ "\"\x7d == 0"
        severity := "critical"
        For := "1m"
        labels := fun k =>
          if k = "deployment" then some deployment.meta.name
          else if k = "namespace" then some deployment.meta.ns
          else none
        annotations := some (fun k =>
          if k = "summary" then some ("Pod " ++ deployment.meta.name ++ " is down")
          else if k = "description" then
            some ("Pod " ++ deployment.meta.name ++ " in namespace " ++
              deployment.meta.ns ++ " has been down for more than 1 minutes")
          else none)
        deploymentRef :=
          some { ns := deployment.meta.ns, name := deployment.meta.name } }
    status := [] }

/-- The in-memory field assignment
`alertRule.Spec.DeploymentRef = &monitoringv1.DeploymentReference{...}`:
the same `AlertRule` with only its `deploymentRef` replaced. -/
def withDeploymentRef (alertRule : AlertRule) (ref : DeploymentReference) : AlertRule :=
  { alertRule with spec := { alertRule.spec with deploymentRef := some ref } }

/-- `deleteAlertRuleForDeployment`: fetch the `AlertRule` named
`<deploymentName>-alert`; a not-found fetch is success without any write,
otherwise delete it. -/
def deleteAlertRuleForDeployment (c : Cluster) (ns deploymentName : String) :
    Cluster × Except String Unit :=
  let alertRuleName := deploymentName ++ "-alert"
  match c.alertRules ns alertRuleName with
  | none => (c, Except.ok ())
  | some _ =>
    ({ c with alertRules := c.alertRules.del ns alertRuleName }, Except.ok ())

/-- `Reconcile` of `DeploymentReconciler`: a not-found workload runs the
`AlertRule` deletion fallback; a workload being deleted is skipped; a workload
without its canonical `AlertRule` gets a default one created; otherwise only a
drifted `Spec.DeploymentRef` is rewritten to the workload's key. -/
def Reconcile (c : Cluster) (reqNs reqName : String) : Cluster × Except String Unit :=
  match c.deployments reqNs reqName with
  | none => deleteAlertRuleForDeployment c reqNs reqName
  | some deployment =>
    if deployment.meta.deletionTimestamp.isSome then (c, Except.ok ())
    else
      let alertRuleName := deployment.meta.name ++ "-alert"
      match c.alertRules reqNs alertRuleName with
      | none =>
        let newAlertRule := createDefaultAlertRule deployment alertRuleName
        ({ c with alertRules :=
            c.alertRules.put newAlertRule.meta.ns newAlertRule.meta.name newAlertRule },
          Except.ok ())
      | some alertRule =>
        if refDrifted deployment alertRule then
          let updated := withDeploymentRef alertRule
            { ns := deployment.meta.ns, name := deployment.meta.name }
          ({ c with alertRules :=
              c.alertRules.put updated.meta.ns updated.meta.name updated },
            Except.ok ())
        else (c, Except.ok ())

end DeploymentReconciler

namespace ConfigMapVariant

/-- A notification channel entry of the list-based `AlertRuleSpec` shape, as
used by `generateAlertRulesYAML`: {discord, email} endpoint strings. -/
structure NotificationChannel where
  discord : String
  email : String

/-- One entry of the `rules` list of the list-based `AlertRuleSpec` shape, as
used by `generateAlertRulesYAML`: name, PromQL condition, duration, severity
and notification channels. -/
structure RuleEntry where
  name : String
  condition : String
  duration : String
  severity : String
  notifications : List NotificationChannel

/-- The list-based `AlertRuleSpec` shape consumed by the configuration-blob
reconciler: a `rules` list plus a single `targetDeployment` string. -/
structure AlertRuleSpecV2 where
  rules : List RuleEntry
  targetDeployment : String

/-- The `AlertRule` resource of the configuration-blob variant. -/
structure AlertRuleV2 where
  apiVersion : String
  kind : String
  meta : ObjectMeta
  spec : AlertRuleSpecV2
  status : List Condition

/-- `corev1.ConfigMap` restricted to the fields the reconciler sets. -/
structure ConfigMap where
  name : String
  ns : String
  labels : LabelMap
  ownerReferences : List OwnerReference
  data : LabelMap

/-- The cluster state the configuration-blob `AlertRuleReconciler` touches. -/
structure Cluster where
  alertRules : Store AlertRuleV2
  configMaps : Store ConfigMap

/-- Go `strings.Join(parts, sep)`. -/
def joinWith (sep : String) : List String → String
  | [] => ""
  | x :: xs => xs.foldl (fun acc y => acc ++ sep ++ y) x

/-- The annotation lines contributed by a rule's notification channels: a
`discord` line when the endpoint is non-empty, then an `email` line when that
endpoint is non-empty, in the declared channel order. -/
def notificationLines (notifications : List NotificationChannel) : List String :=
  notifications.foldl
    (fun acc notif =>
      (acc ++ (if notif.discord ≠ "" then ["    discord: \"" ++ notif.discord ++ "\""] else []))
        ++ (if notif.email ≠ "" then ["    email: \"" ++ notif.email ++ "\""] else []))
    []

/-- The YAML block `generateAlertRulesYAML` emits for a single rule: the
template `- alert/expr/for/labels/annotations` with the joined label and
annotation lines spliced in. -/
def ruleYAML (targetDeployment : String) (rule : RuleEntry) : String :=
  let annotationLines :=
    ["    summary: \"" ++ rule.name ++ "\"",
     "    severity: \"" ++ rule.severity ++ "\""] ++ notificationLines rule.notifications
  let labelLines :=
    ["    alertname: \"" ++ rule.name ++ "\"",
     "    severity: \"" ++ rule.severity ++ "\"",
     "    deployment: \"" ++ targetDeployment ++ "\""]
  "- alert: " ++ rule.name ++ "\n  expr: " ++ rule.condition ++ "\n  for: " ++
    rule.duration ++ "\n  labels:\n" ++ joinWith "\n" labelLines ++
    "\n  annotations:\n" ++ joinWith "\n" annotationLines ++ "\n"

/-- `generateAlertRulesYAML`: concatenate the per-rule blocks under a
`groups:` header naming the `AlertRule`; the Go function always returns a
`nil` error. -/
def generateAlertRulesYAML (alertRule : AlertRuleV2) : Except String String :=
  let rules := alertRule.spec.rules.map (ruleYAML alertRule.spec.targetDeployment)
  Except.ok ("groups:\n- name: " ++ alertRule.meta.name ++ "\n  rules:\n" ++
    joinWith "" rules)

/-- The `ConfigMap` object the reconciler builds: name `alertrule-<name>`,
same namespace, fixed labels plus a back-reference label, a controller-owner
reference to the `AlertRule`, and the YAML under the `alertrules.yaml` key. -/
def buildConfigMap (alertRule : AlertRuleV2) (yaml : String) : ConfigMap :=
  { name := "alertrule-" ++ alertRule.meta.name
    ns := alertRule.meta.ns
    labels := fun k =>
      if k = "app.kubernetes.io/name" then some "k8s-alert-rule-operator"
      else if k = "app.kubernetes.io/managed-by" then some "alertrule-controller"
      else if k = "alertrule.monitoring.my.domain" then some alertRule.meta.name
      else none
    ownerReferences :=
      [{ apiVersion := alertRule.apiVersion, kind := alertRule.kind,
         name := alertRule.meta.name, uid := alertRule.meta.uid, controller := true }]
    data := fun k => if k = "alertrules.yaml" then some yaml else none }

/-- `updateStatus` of the configuration-blob variant: stamp the condition with
the current time and the resource's generation, upsert it into the condition
list, persist the status, and (like the Go code, which mutates the shared
pointer) hand the updated resource back for the remainder of the reconcile. -/
def updateStatus (now : Nat) (c : Cluster) (alertRule : AlertRuleV2)
    (cond : Condition) : Cluster × AlertRuleV2 :=
  let stamped := stampCondition now alertRule.meta.generation cond
  let updated := { alertRule with status := upsertCondition alertRule.status stamped }
  ({ c with alertRules := c.alertRules.put updated.meta.ns updated.meta.name updated },
    updated)

/-- `Reconcile` of the configuration-blob `AlertRuleReconciler`: a not-found
`AlertRule` returns success immediately (created objects are garbage
collected); otherwise — with no deletion-timestamp check — the status is set
to `Progressing`, the YAML is generated (a generation failure would set
`Degraded`/`GenerationFailed`), the `ConfigMap` is created, or has its data
and labels replaced when it exists, and the status is set to `Available`. -/
def Reconcile (now : Nat) (c : Cluster) (reqNs reqName : String) :
    Cluster × Except String Unit :=
  match c.alertRules reqNs reqName with
  | none => (c, Except.ok ())
  | some alertRule =>
    let progressing := updateStatus now c alertRule
      { condType := "Progressing", status := "True", reason := "Reconciling",
        message := "Reconciling AlertRule", lastTransitionTime := 0,
        observedGeneration := 0 }
    let c1 := progressing.1
    let ar1 := progressing.2
    match generateAlertRulesYAML ar1 with
    | Except.error e =>
      let degraded := updateStatus now c1 ar1
        { condType := "Degraded", status := "True", reason := "GenerationFailed",
          message := "Failed to generate alert rules: " ++ e,
          lastTransitionTime := 0, observedGeneration := 0 }
      (degraded.1, Except.error e)
    | Except.ok yaml =>
      let configMap := buildConfigMap ar1 yaml
      let c2 :=
        match c1.configMaps ar1.meta.ns configMap.name with
        | none =>
          { c1 with configMaps := c1.configMaps.put configMap.ns configMap.name configMap }
        | some existing =>
          let replaced := { existing with data := configMap.data, labels := configMap.labels }
          { c1 with configMaps := c1.configMaps.put replaced.ns replaced.name replaced }
      let available := updateStatus now c2 ar1
        { condType := "Available", status := "True", reason := "Reconciled",
          message := "AlertRule reconciled successfully. ConfigMap: " ++ configMap.name,
          lastTransitionTime := 0, observedGeneration := 0 }
      (available.1, Except.ok ())

end ConfigMapVariant

/-- C5: rendering is deterministic — for every fixed spec, two calls of the
render function (`createPrometheusRule` in the rule-group variant,
`generateAlertRulesYAML` in the configuration-blob variant) on that same spec
produce identical output.  Both renderers are pure functions of the resource:
their map-valued outputs are determined as mappings, and the YAML string is
built from list traversals only. -/
theorem render_deterministic :
    (∀ alertRule : AlertRule,
      PrometheusVariant.createPrometheusRule alertRule =
        PrometheusVariant.createPrometheusRule alertRule) ∧
    (∀ alertRule : ConfigMapVariant.AlertRuleV2,
      ConfigMapVariant.generateAlertRulesYAML alertRule =
        ConfigMapVariant.generateAlertRulesYAML alertRule) :=
  ⟨fun _ => rfl, fun _ => rfl⟩

/-- A concrete `AlertRule` of the configuration-blob variant, named `foo` in
namespace `default`. -/
def c8AlertRule : ConfigMapVariant.AlertRuleV2 :=
  { apiVersion := "monitoring.my.domain/v1", kind := "AlertRule",
    meta :=
      { name := "foo", ns := "default", uid := "u8", labels := LabelMap.empty,
        deletionTimestamp := none, generation := 1, ownerReferences := [] },
    spec := { rules := [], targetDeployment := "web" },
    status := [] }

/-- A cluster holding only `c8AlertRule` and no `ConfigMap`. -/
def c8Cluster : ConfigMapVariant.Cluster :=
  { alertRules := fun x y => if x = "default" ∧ y = "foo" then some c8AlertRule else none,
    configMaps := fun _ _ => none }

/-- C8 counterexample: the configuration-blob reconciler stores its artifact
under `alertrule-foo`, not under the owning `AlertRule`'s own name `foo`, so
the same-name identity does not hold in the configuration-blob variant. -/
theorem configMap_artifact_name_counterexample :
    c8AlertRule.meta.name = "foo" ∧
    (ConfigMapVariant.Reconcile 0 c8Cluster "default" "foo").1.configMaps "default" "foo" =
      none ∧
    ((ConfigMapVariant.Reconcile 0 c8Cluster "default" "foo").1.configMaps "default"
      "alertrule-foo").isSome = true ∧
    (ConfigMapVariant.buildConfigMap c8AlertRule "").name ≠ c8AlertRule.meta.name :=
  ⟨rfl, rfl, rfl, by decide⟩

/-- C8 amended: the rule-group artifact carries the owning `AlertRule`'s own
name and namespace; the configuration-blob artifact is in the owning
`AlertRule`'s namespace but is named `alertrule-<name>`. -/
theorem artifact_identity :
    (∀ alertRule : AlertRule,
      (PrometheusVariant.createPrometheusRule alertRule).name = alertRule.meta.name ∧
      (PrometheusVariant.createPrometheusRule alertRule).ns = alertRule.meta.ns) ∧
    (∀ (alertRule : ConfigMapVariant.AlertRuleV2) (yaml : String),
      (ConfigMapVariant.buildConfigMap alertRule yaml).ns = alertRule.meta.ns ∧
      (ConfigMapVariant.buildConfigMap alertRule yaml).name =
        "alertrule-" ++ alertRule.meta.name) :=
  ⟨fun _ => ⟨rfl, rfl⟩, fun _ _ => ⟨rfl, rfl⟩⟩

/-- A concrete `AlertRule` whose metadata carries the user label
`managed-by=custom`. -/
def c2AlertRule : AlertRule :=
  { apiVersion := "monitoring.example.com/v1", kind := "AlertRule",
    meta :=
      { name := "foo", ns := "default", uid := "u2",
        labels := fun k => if k = "managed-by" then some "custom" else none,
        deletionTimestamp := none, generation := 1, ownerReferences := [] },
    spec :=
      { alert := "fooPodDown", expr := "up == 0", severity := "warning", For := "1m",
        labels := LabelMap.empty, annotations := none, deploymentRef := none },
    status := [] }

/-- C2 counterexample: with the user label `managed-by=custom` the rendered
`PrometheusRule`'s `managed-by` label is `custom`, not `alert-rule-operator` —
the operator identity label is overridable. -/
theorem managedBy_label_override_counterexample :
    c2AlertRule.meta.labels "managed-by" = some "custom" ∧
    (PrometheusVariant.createPrometheusRule c2AlertRule).labels "managed-by" =
      some "custom" ∧
    (PrometheusVariant.createPrometheusRule c2AlertRule).labels "managed-by" ≠
      some "alert-rule-operator" :=
  ⟨rfl, rfl, by decide⟩

/-- C2 amended: the rendered labels start from the built-in set
`{managed-by: alert-rule-operator, release: monitoring}` and are overlaid with
the user's metadata labels; on every colliding key — `managed-by` included —
the user value wins, so the output's `managed-by` equals `alert-rule-operator`
exactly when the user does not supply that key. -/
theorem prometheusRule_label_merge (alertRule : AlertRule) :
    (∀ k v, alertRule.meta.labels k = some v →
      (PrometheusVariant.createPrometheusRule alertRule).labels k = some v) ∧
    (∀ k, alertRule.meta.labels k = none →
      (PrometheusVariant.createPrometheusRule alertRule).labels k =
        PrometheusVariant.builtinLabels k) ∧
    (alertRule.meta.labels "managed-by" = none →
      (PrometheusVariant.createPrometheusRule alertRule).labels "managed-by" =
        some "alert-rule-operator") := by
  refine ⟨?_, ?_, ?_⟩
  · intro k v h
    simp [PrometheusVariant.createPrometheusRule, mergeLabels, h]
  · intro k h
    simp [PrometheusVariant.createPrometheusRule, mergeLabels, h]
  · intro h
    simp [PrometheusVariant.createPrometheusRule, mergeLabels, h,
      PrometheusVariant.builtinLabels]

/-- A concrete `AlertRule` with no metadata labels at all. -/
def c2wAlertRule : AlertRule :=
  { apiVersion := "monitoring.example.com/v1", kind := "AlertRule",
    meta :=
      { name := "bar", ns := "default", uid := "u2w", labels := LabelMap.empty,
        deletionTimestamp := none, generation := 1, ownerReferences := [] },
    spec :=
      { alert := "barPodDown", expr := "up == 0", severity := "critical", For := "1m",
        labels := LabelMap.empty, annotations := none, deploymentRef := none },
    status := [] }

/-- C2 witness: at a concrete `AlertRule` without a user `managed-by` label,
the rendered `managed-by` label is the operator identity, and a concrete user
label survives the merge. -/
theorem prometheusRule_label_merge_witness :
    (PrometheusVariant.createPrometheusRule c2wAlertRule).labels "managed-by" =
      some "alert-rule-operator" ∧
    (PrometheusVariant.createPrometheusRule c2AlertRule).labels "managed-by" =
      some "custom" :=
  ⟨(prometheusRule_label_merge c2wAlertRule).2.2 rfl,
    (prometheusRule_label_merge c2AlertRule).1 "managed-by" "custom" rfl⟩

/-- A concrete `AlertRule` whose optional severity is the empty string. -/
def c9AlertRule : AlertRule :=
  { apiVersion := "monitoring.example.com/v1", kind := "AlertRule",
    meta :=
      { name := "baz", ns := "default", uid := "u9", labels := LabelMap.empty,
        deletionTimestamp := none, generation := 1, ownerReferences := [] },
    spec :=
      { alert := "bazPodDown", expr := "up == 0", severity := "", For := "",
        labels := LabelMap.empty, annotations := none, deploymentRef := none },
    status := [] }

/-- C9 counterexample: with an empty `severity` in the spec, the rendered rule
entry still carries a `severity` label whose value is the empty string — the
severity field is not omitted, and an empty string is emitted in place of the
absent value. -/
theorem severity_empty_string_counterexample :
    c9AlertRule.spec.severity = "" ∧
    (PrometheusVariant.buildPrometheusRule c9AlertRule).labels "severity" = some "" ∧
    (PrometheusVariant.buildPrometheusRule c9AlertRule).labels "severity" ≠ none :=
  ⟨rfl, rfl, by decide⟩

/-- C9 amended: the rule-group renderer omits `for` exactly when `Spec.For` is
empty and omits `annotations` when `Spec.Annotations` is nil, but it always
emits a `severity` label — the empty string when the spec's severity is unset
(unless a user spec label overrides the key); the configuration-blob renderer
emits its `for` line unconditionally, whatever the duration string is. -/
theorem optional_field_omission (alertRule : AlertRule) :
    (alertRule.spec.For = "" →
      (PrometheusVariant.buildPrometheusRule alertRule).For = none) ∧
    (alertRule.spec.For ≠ "" →
      (PrometheusVariant.buildPrometheusRule alertRule).For = some alertRule.spec.For) ∧
    (alertRule.spec.annotations = none →
      (PrometheusVariant.buildPrometheusRule alertRule).annotations = none) ∧
    (alertRule.spec.labels "severity" = none →
      (PrometheusVariant.buildPrometheusRule alertRule).labels "severity" =
        some alertRule.spec.severity) ∧
    (∀ (targetDeployment : String) (rule : ConfigMapVariant.RuleEntry),
      ∃ rest : String,
        ConfigMapVariant.ruleYAML targetDeployment rule =
          "- alert: " ++ rule.name ++ "\n  expr: " ++ rule.condition ++ "\n  for: " ++
            rule.duration ++ rest) := by
  refine ⟨?_, ?_, ?_, ?_, ?_⟩
  · intro h
    simp [PrometheusVariant.buildPrometheusRule, h]
  · intro h
    simp [PrometheusVariant.buildPrometheusRule, h]
  · intro h
    simp [PrometheusVariant.buildPrometheusRule, h]
  · intro h
    simp [PrometheusVariant.buildPrometheusRule, mergeLabels, h]
  · intro targetDeployment rule
    refine ⟨"\n  labels:\n" ++
      ConfigMapVariant.joinWith "\n"
        ["    alertname: \"" ++ rule.name ++ "\"",
         "    severity: \"" ++ rule.severity ++ "\"",
         "    deployment: \"" ++ targetDeployment ++ "\""] ++
      "\n  annotations:\n" ++
      ConfigMapVariant.joinWith "\n"
        (["    summary: \"" ++ rule.name ++ "\"",
          "    severity: \"" ++ rule.severity ++ "\""] ++
          ConfigMapVariant.notificationLines rule.notifications) ++ "\n", ?_⟩
    simp only [ConfigMapVariant.ruleYAML, String.append_assoc]

/-- A concrete `AlertRule` with a non-empty `for`, annotations present and a
set severity. -/
def c9wAlertRule : AlertRule :=
  { apiVersion := "monitoring.example.com/v1", kind := "AlertRule",
    meta :=
      { name := "qux", ns := "default", uid := "u9w", labels := LabelMap.empty,
        deletionTimestamp := none, generation := 1, ownerReferences := [] },
    spec :=
      { alert := "quxPodDown", expr := "up == 0", severity := "warning", For := "5m",
        labels := LabelMap.empty, annotations := none, deploymentRef := none },
    status := [] }

/-- A concrete rule entry of the configuration-blob shape with an empty
duration. -/
def c9wRule : ConfigMapVariant.RuleEntry :=
  { name := "r1", condition := "up == 0", duration := "", severity := "",
    notifications := [] }

/-- C9 witness: the amended omission behaviour evaluated at concrete inputs —
`for` omitted for `c9AlertRule` (empty `For`), kept for `c9wAlertRule`
(`For = "5m"`), annotations omitted when nil, severity emitted, and the blob
renderer's `for` line present even for an empty duration. -/
theorem optional_field_omission_witness :
    (PrometheusVariant.buildPrometheusRule c9AlertRule).For = none ∧
    (PrometheusVariant.buildPrometheusRule c9wAlertRule).For = some "5m" ∧
    (PrometheusVariant.buildPrometheusRule c9wAlertRule).annotations = none ∧
    (PrometheusVariant.buildPrometheusRule c9wAlertRule).labels "severity" =
      some "warning" ∧
    (∃ rest : String,
      ConfigMapVariant.ruleYAML "web" c9wRule =
        "- alert: " ++ c9wRule.name ++ "\n  expr: " ++ c9wRule.condition ++
          "\n  for: " ++ c9wRule.duration ++ rest) :=
  ⟨(optional_field_omission c9AlertRule).1 rfl,
    (optional_field_omission c9wAlertRule).2.1 (by decide),
    (optional_field_omission c9wAlertRule).2.2.1 rfl,
    (optional_field_omission c9wAlertRule).2.2.2.1 rfl,
    (optional_field_omission c9wAlertRule).2.2.2.2 "web" c9wRule⟩

/-- When no existing condition matches the new condition's type, the upsert
appends. -/
theorem upsertCondition_append (conds : List Condition) (c : Condition)
    (h : ∀ x ∈ conds, x.condType ≠ c.condType) :
    upsertCondition conds c = conds ++ [c] := by
  induction conds with
  | nil => rfl
  | cons x xs ih =>
    have hx : x.condType ≠ c.condType := h x (List.mem_cons_self x xs)
    simp [upsertCondition, hx, ih fun y hy => h y (List.mem_cons_of_mem x hy)]

/-- The upsert replaces the first condition of matching type in place and
keeps every other entry in order. -/
theorem upsertCondition_replace (pre : List Condition) (old : Condition)
    (post : List Condition) (c : Condition)
    (hpre : ∀ x ∈ pre, x.condType ≠ c.condType) (hold : old.condType = c.condType) :
    upsertCondition (pre ++ old :: post) c = pre ++ c :: post := by
  induction pre with
  | nil => simp [upsertCondition, hold]
  | cons x xs ih =>
    have hx : x.condType ≠ c.condType := hpre x (List.mem_cons_self x xs)
    simp [upsertCondition, hx, ih fun y hy => hpre y (List.mem_cons_of_mem x hy)]

/-- The multiset of condition types after an upsert: unchanged when the type
was already present, extended by the new type otherwise. -/
theorem upsertCondition_map_condType (conds : List Condition) (c : Condition) :
    (upsertCondition conds c).map Condition.condType =
      if c.condType ∈ conds.map Condition.condType then conds.map Condition.condType
      else conds.map Condition.condType ++ [c.condType] := by
  induction conds with
  | nil => simp [upsertCondition]
  | cons x xs ih =>
    by_cases hx : x.condType = c.condType
    · simp [upsertCondition, hx]
    · have hx' : ¬c.condType = x.condType := fun h => hx h.symm
      simp only [upsertCondition, if_neg hx, List.map_cons, List.mem_cons, hx',
        false_or, ih]
      by_cases hmem : c.condType ∈ xs.map Condition.condType
      · simp [hmem]
      · simp [hmem]

/-- The upsert preserves the at-most-one-condition-per-type invariant. -/
theorem upsertCondition_nodup (conds : List Condition) (c : Condition)
    (h : (conds.map Condition.condType).Nodup) :
    ((upsertCondition conds c).map Condition.condType).Nodup := by
  rw [upsertCondition_map_condType]
  by_cases hmem : c.condType ∈ conds.map Condition.condType
  · simpa [hmem] using h
  · simp [hmem, List.nodup_append, h]

/-- C4: the status-condition upsert used by both `updateStatus`
implementations keeps at most one condition per distinct type, replaces the
first condition of matching type in place (preserving the order of all other
entries) or appends when no match exists, and the stored condition is stamped
with the current time and the resource's current generation on every call,
whatever its status/reason/message. -/
theorem condition_upsert_invariant (conds : List Condition) (cond : Condition)
    (now : Nat) (gen : Int)
    (hinv : (conds.map Condition.condType).Nodup) :
    ((upsertCondition conds (stampCondition now gen cond)).map Condition.condType).Nodup ∧
    (stampCondition now gen cond).lastTransitionTime = now ∧
    (stampCondition now gen cond).observedGeneration = gen ∧
    (stampCondition now gen cond).condType = cond.condType ∧
    (stampCondition now gen cond).status = cond.status ∧
    (stampCondition now gen cond).reason = cond.reason ∧
    (stampCondition now gen cond).message = cond.message ∧
    ((∀ x ∈ conds, x.condType ≠ cond.condType) →
      upsertCondition conds (stampCondition now gen cond) =
        conds ++ [stampCondition now gen cond]) ∧
    (∀ pre old post, conds = pre ++ old :: post →
      (∀ x ∈ pre, x.condType ≠ cond.condType) → old.condType = cond.condType →
      upsertCondition conds (stampCondition now gen cond) =
        pre ++ stampCondition now gen cond :: post) := by
  refine ⟨upsertCondition_nodup conds _ hinv, rfl, rfl, rfl, rfl, rfl, rfl, ?_, ?_⟩
  · intro h
    exact upsertCondition_append conds _ h
  · intro pre old post hsplit hpre hold
    rw [hsplit]
    exact upsertCondition_replace pre old post _ hpre hold

/-- A concrete pre-existing `Ready` condition. -/
def c4Old : Condition :=
  { condType := "Ready", status := "False", reason := "Initial", message := "init",
    lastTransitionTime := 1, observedGeneration := 1 }

/-- A concrete pre-existing `Degraded` condition. -/
def c4Other : Condition :=
  { condType := "Degraded", status := "False", reason := "None", message := "ok",
    lastTransitionTime := 1, observedGeneration := 1 }

/-- A concrete condition list with one `Ready` and one `Degraded` entry. -/
def c4Conds : List Condition := [c4Old, c4Other]

/-- A fresh `Ready` condition to upsert. -/
def c4Cond : Condition :=
  { condType := "Ready", status := "True", reason := "Reconciled", message := "done",
    lastTransitionTime := 0, observedGeneration := 0 }

/-- C4 witness: upserting a fresh `Ready` condition into a concrete
{`Ready`, `Degraded`} list keeps the type invariant and replaces the `Ready`
entry in place, stamped with the given time and generation. -/
theorem condition_upsert_invariant_witness :
    ((upsertCondition c4Conds (stampCondition 5 2 c4Cond)).map Condition.condType).Nodup ∧
    upsertCondition c4Conds (stampCondition 5 2 c4Cond) =
      [] ++ stampCondition 5 2 c4Cond :: [c4Other] :=
  ⟨(condition_upsert_invariant c4Conds c4Cond 5 2 (by decide)).1,
    (condition_upsert_invariant c4Conds c4Cond 5 2 (by decide)).2.2.2.2.2.2.2.2
      [] c4Old [c4Other] rfl (by simp) rfl⟩


/-- C1: when the workload exists and is live and its canonical `AlertRule`
already exists, `DeploymentReconciler.Reconcile` succeeds, never touches the
workload store, and changes only the `AlertRule`'s `deploymentRef` — and only
when that reference is nil or its namespace/name differs from the workload's;
severity, expression, `for`, labels, annotations, metadata and status are
identical before and after, and no other store key changes. -/
theorem deploymentRef_update_frame (c : DeploymentReconciler.Cluster)
    (reqNs reqName : String) (d : Deployment) (alertRule : AlertRule)
    (hd : c.deployments reqNs reqName = some d)
    (hlive : d.meta.deletionTimestamp = none)
    (har : c.alertRules reqNs (d.meta.name ++ "-alert") = some alertRule) :
    (DeploymentReconciler.Reconcile c reqNs reqName).2 = Except.ok () ∧
    (DeploymentReconciler.Reconcile c reqNs reqName).1.deployments = c.deployments ∧
    (DeploymentReconciler.refDrifted d alertRule = false →
      (DeploymentReconciler.Reconcile c reqNs reqName).1 = c) ∧
    (DeploymentReconciler.refDrifted d alertRule = true →
      ∃ updated : AlertRule,
        (DeploymentReconciler.Reconcile c reqNs reqName).1.alertRules
            alertRule.meta.ns alertRule.meta.name = some updated ∧
        updated.spec.deploymentRef = some { ns := d.meta.ns, name := d.meta.name } ∧
        updated.spec.alert = alertRule.spec.alert ∧
        updated.spec.expr = alertRule.spec.expr ∧
        updated.spec.severity = alertRule.spec.severity ∧
        updated.spec.For = alertRule.spec.For ∧
        updated.spec.labels = alertRule.spec.labels ∧
        updated.spec.annotations = alertRule.spec.annotations ∧
        updated.meta = alertRule.meta ∧
        updated.status = alertRule.status ∧
        (∀ x y, ¬(x = alertRule.meta.ns ∧ y = alertRule.meta.name) →
          (DeploymentReconciler.Reconcile c reqNs reqName).1.alertRules x y =
            c.alertRules x y)) := by
  by_cases hdrift : DeploymentReconciler.refDrifted d alertRule = true
  · have hok : (DeploymentReconciler.Reconcile c reqNs reqName).2 = Except.ok () := by
      simp only [DeploymentReconciler.Reconcile, hd, hlive, Option.isSome_none,
        Bool.false_eq_true, if_false, har, hdrift, if_true]
    have hdep : (DeploymentReconciler.Reconcile c reqNs reqName).1.deployments =
        c.deployments := by
      simp only [DeploymentReconciler.Reconcile, hd, hlive, Option.isSome_none,
        Bool.false_eq_true, if_false, har, hdrift, if_true]
    have hrules : (DeploymentReconciler.Reconcile c reqNs reqName).1.alertRules =
        c.alertRules.put alertRule.meta.ns alertRule.meta.name
          (DeploymentReconciler.withDeploymentRef alertRule ⟨d.meta.ns, d.meta.name⟩) := by
      simp only [DeploymentReconciler.Reconcile, hd, hlive, Option.isSome_none,
        Bool.false_eq_true, if_false, har, hdrift, if_true,
        DeploymentReconciler.withDeploymentRef]
    refine ⟨hok, hdep, ?_, ?_⟩
    · intro h
      rw [hdrift] at h
      exact absurd h (by decide)
    · intro _
      refine ⟨DeploymentReconciler.withDeploymentRef alertRule ⟨d.meta.ns, d.meta.name⟩,
        ?_, rfl, rfl, rfl, rfl, rfl, rfl, rfl, rfl, rfl, ?_⟩
      · rw [hrules]
        simp [Store.put]
      · intro x y hxy
        rw [hrules]
        simp [Store.put, hxy]
  · have hdrift' : DeploymentReconciler.refDrifted d alertRule = false := by
      simpa using hdrift
    have hred : DeploymentReconciler.Reconcile c reqNs reqName = (c, Except.ok ()) := by
      simp only [DeploymentReconciler.Reconcile, hd, hlive, Option.isSome_none,
        Bool.false_eq_true, if_false, har, hdrift', if_true]
    rw [hred]
    refine ⟨rfl, rfl, fun _ => rfl, ?_⟩
    · intro h
      rw [hdrift'] at h
      exact absurd h (by decide)

/-- A concrete live workload `web` in namespace `default`. -/
def c1Deployment : Deployment :=
  { apiVersion := "apps/v1", kind := "Deployment",
    meta :=
      { name := "web", ns := "default", uid := "du1", labels := LabelMap.empty,
        deletionTimestamp := none, generation := 1, ownerReferences := [] } }

/-- A concrete existing `AlertRule` `web-alert` whose `deploymentRef` points
at another namespace and whose severity a user set to `warning`. -/
def c1AlertRule : AlertRule :=
  { apiVersion := "monitoring.example.com/v1", kind := "AlertRule",
    meta :=
      { name := "web-alert", ns := "default", uid := "u1", labels := LabelMap.empty,
        deletionTimestamp := none, generation := 2, ownerReferences := [] },
    spec :=
      { alert := "webPodDown", expr := "up == 0", severity := "warning", For := "2m",
        labels := LabelMap.empty, annotations := none,
        deploymentRef := some { ns := "other", name := "web" } },
    status := [] }

/-- A cluster holding exactly `c1Deployment` and `c1AlertRule`. -/
def c1Cluster : DeploymentReconciler.Cluster :=
  { deployments := fun x y => if x = "default" ∧ y = "web" then some c1Deployment else none,
    alertRules := fun x y =>
      if x = "default" ∧ y = "web-alert" then some c1AlertRule else none }

/-- C1 witness: on the concrete drifted cluster the reconcile succeeds, the
stored `AlertRule` has the refreshed `deploymentRef` and the user-set
severity is untouched. -/
theorem deploymentRef_update_frame_witness :
    (DeploymentReconciler.Reconcile c1Cluster "default" "web").2 = Except.ok () ∧
    (∃ updated : AlertRule,
      (DeploymentReconciler.Reconcile c1Cluster "default" "web").1.alertRules
          c1AlertRule.meta.ns c1AlertRule.meta.name = some updated ∧
      updated.spec.deploymentRef = some { ns := "default", name := "web" } ∧
      updated.spec.severity = "warning") := by
  have h := deploymentRef_update_frame c1Cluster "default" "web" c1Deployment
    c1AlertRule rfl rfl rfl
  refine ⟨h.1, ?_⟩
  obtain ⟨u, hlook, href, _, _, hsev, _⟩ := h.2.2.2 (by decide)
  exact ⟨u, hlook, href, hsev⟩

/-- C6: for a live workload whose canonical `AlertRule` is absent,
`DeploymentReconciler` creates `createDefaultAlertRule`'s output at
`<workload>-alert` in the workload's namespace — alert `<workload>PodDown`,
expression "up{job=\"<workload>\"} == 0", `for` 1m, severity critical, the
workload-name/namespace label pair, summary and description annotations
interpolated with the workload's name and namespace, and a controller-owner
reference to the workload. -/
theorem default_alertRule_creation (c : DeploymentReconciler.Cluster)
    (reqNs reqName : String) (d : Deployment)
    (hd : c.deployments reqNs reqName = some d)
    (hlive : d.meta.deletionTimestamp = none)
    (habsent : c.alertRules reqNs (d.meta.name ++ "-alert") = none) :
    (DeploymentReconciler.Reconcile c reqNs reqName).2 = Except.ok () ∧
    (DeploymentReconciler.Reconcile c reqNs reqName).1.alertRules d.meta.ns
        (d.meta.name ++ "-alert") =
      some (DeploymentReconciler.createDefaultAlertRule d (d.meta.name ++ "-alert")) ∧
    (DeploymentReconciler.createDefaultAlertRule d (d.meta.name ++ "-alert")).spec.alert =
      d.meta.name ++ "PodDown" ∧
    (DeploymentReconciler.createDefaultAlertRule d (d.meta.name ++ "-alert")).spec.expr =
      "up\x7bjob=\"" ++ d.meta.name ++ "\"\x7d == 0" ∧
    (DeploymentReconciler.createDefaultAlertRule d (d.meta.name ++ "-alert")).spec.For =
      "1m" ∧
    (DeploymentReconciler.createDefaultAlertRule d
      (d.meta.name ++ "-alert")).spec.severity = "critical" ∧
    (DeploymentReconciler.createDefaultAlertRule d
      (d.meta.name ++ "-alert")).spec.labels "deployment" = some d.meta.name ∧
    (DeploymentReconciler.createDefaultAlertRule d
      (d.meta.name ++ "-alert")).spec.labels "namespace" = some d.meta.ns ∧
    (∃ am : LabelMap,
      (DeploymentReconciler.createDefaultAlertRule d
        (d.meta.name ++ "-alert")).spec.annotations = some am ∧
      am "summary" = some ("Pod " ++ d.meta.name ++ " is down") ∧
      am "description" = some ("Pod " ++ d.meta.name ++ " in namespace " ++
        d.meta.ns ++ " has been down for more than 1 minutes")) ∧
    (DeploymentReconciler.createDefaultAlertRule d
      (d.meta.name ++ "-alert")).meta.ownerReferences =
      [{ apiVersion := d.apiVersion, kind := d.kind, name := d.meta.name,
         uid := d.meta.uid, controller := true }] ∧
    (DeploymentReconciler.createDefaultAlertRule d (d.meta.name ++ "-alert")).meta.ns =
      d.meta.ns ∧
    (DeploymentReconciler.createDefaultAlertRule d
      (d.meta.name ++ "-alert")).spec.deploymentRef =
      some { ns := d.meta.ns, name := d.meta.name } := by
  have hok : (DeploymentReconciler.Reconcile c reqNs reqName).2 = Except.ok () := by
    simp only [DeploymentReconciler.Reconcile, hd, hlive, Option.isSome_none,
      Bool.false_eq_true, if_false, habsent]
  have hrules : (DeploymentReconciler.Reconcile c reqNs reqName).1.alertRules =
      c.alertRules.put d.meta.ns (d.meta.name ++ "-alert")
        (DeploymentReconciler.createDefaultAlertRule d (d.meta.name ++ "-alert")) := by
    simp only [DeploymentReconciler.Reconcile, hd, hlive, Option.isSome_none,
      Bool.false_eq_true, if_false, habsent, DeploymentReconciler.createDefaultAlertRule]
  refine ⟨hok, ?_, rfl, rfl, rfl, rfl, ?_, ?_, ⟨_, rfl, ?_, ?_⟩, rfl, rfl, rfl⟩
  · rw [hrules]
    simp [Store.put]
  · simp [DeploymentReconciler.createDefaultAlertRule]
  · simp [DeploymentReconciler.createDefaultAlertRule]
  · simp [DeploymentReconciler.createDefaultAlertRule]
  · simp [DeploymentReconciler.createDefaultAlertRule]

/-- A concrete live workload `checkout` with no `AlertRule` yet. -/
def c6Deployment : Deployment :=
  { apiVersion := "apps/v1", kind := "Deployment",
    meta :=
      { name := "checkout", ns := "default", uid := "du6", labels := LabelMap.empty,
        deletionTimestamp := none, generation := 1, ownerReferences := [] } }

/-- A cluster holding only `c6Deployment` and no `AlertRule`. -/
def c6Cluster : DeploymentReconciler.Cluster :=
  { deployments := fun x y =>
      if x = "default" ∧ y = "checkout" then some c6Deployment else none,
    alertRules := fun _ _ => none }

/-- C6 witness: reconciling the concrete workload `checkout` creates
`checkout-alert` with alert `checkoutPodDown`, the templated expression,
`for` 1m and severity critical. -/
theorem default_alertRule_creation_witness :
    (DeploymentReconciler.Reconcile c6Cluster "default" "checkout").2 = Except.ok () ∧
    (DeploymentReconciler.Reconcile c6Cluster "default" "checkout").1.alertRules
        "default" "checkout-alert" =
      some (DeploymentReconciler.createDefaultAlertRule c6Deployment "checkout-alert") ∧
    (DeploymentReconciler.createDefaultAlertRule c6Deployment "checkout-alert").spec.alert =
      "checkoutPodDown" ∧
    (DeploymentReconciler.createDefaultAlertRule c6Deployment "checkout-alert").spec.expr =
      "up\x7bjob=\"checkout\"\x7d == 0" := by
  have h := default_alertRule_creation c6Cluster "default" "checkout" c6Deployment
    rfl rfl rfl
  exact ⟨h.1, h.2.1, h.2.2.1, h.2.2.2.1⟩

/-- A concrete configuration-blob `AlertRule` being deleted (non-zero
deletion timestamp). -/
def c7AlertRule : ConfigMapVariant.AlertRuleV2 :=
  { apiVersion := "monitoring.my.domain/v1", kind := "AlertRule",
    meta :=
      { name := "doomed", ns := "default", uid := "u7", labels := LabelMap.empty,
        deletionTimestamp := some 1, generation := 4, ownerReferences := [] },
    spec := { rules := [], targetDeployment := "web" },
    status := [] }

/-- A cluster holding only the terminating `c7AlertRule` and no `ConfigMap`. -/
def c7Cluster : ConfigMapVariant.Cluster :=
  { alertRules := fun x y => if x = "default" ∧ y = "doomed" then some c7AlertRule else none,
    configMaps := fun _ _ => none }

/-- C7 counterexample: the configuration-blob reconciler has no
deletion-timestamp check — on a resource with a non-zero deletion timestamp
it still writes to the store (here: its `ConfigMap` appears, and the stored
resource gains status conditions), so "no store write at all" fails for that
variant. -/
theorem configMapVariant_deletion_write_counterexample :
    c7AlertRule.meta.deletionTimestamp = some 1 ∧
    c7Cluster.configMaps "default" "alertrule-doomed" = none ∧
    ((ConfigMapVariant.Reconcile 3 c7Cluster "default" "doomed").1.configMaps
      "default" "alertrule-doomed").isSome = true ∧
    (ConfigMapVariant.Reconcile 3 c7Cluster "default" "doomed").2 = Except.ok () :=
  ⟨rfl, rfl, rfl, rfl⟩

/-- C7 amended: on a resource that exists with a non-zero deletion timestamp,
`DeploymentReconciler.Reconcile` and the rule-group
`AlertRuleReconciler.Reconcile` perform no store write at all and return
success; the configuration-blob variant lacks the check and proceeds to write
status and its `ConfigMap`. -/
theorem deletion_timestamp_noop :
    (∀ (c : DeploymentReconciler.Cluster) (reqNs reqName : String) (d : Deployment),
      c.deployments reqNs reqName = some d → d.meta.deletionTimestamp.isSome = true →
      DeploymentReconciler.Reconcile c reqNs reqName = (c, Except.ok ())) ∧
    (∀ (now : Nat) (c : PrometheusVariant.Cluster) (reqNs reqName : String)
        (alertRule : AlertRule),
      c.alertRules reqNs reqName = some alertRule →
      alertRule.meta.deletionTimestamp.isSome = true →
      PrometheusVariant.Reconcile now c reqNs reqName = (c, Except.ok ())) := by
  constructor
  · intro c reqNs reqName d hd hdel
    simp only [DeploymentReconciler.Reconcile, hd, hdel, if_true]
  · intro now c reqNs reqName alertRule har hdel
    simp only [PrometheusVariant.Reconcile, har, hdel, if_true]

/-- A concrete workload being deleted. -/
def c7Deployment : Deployment :=
  { apiVersion := "apps/v1", kind := "Deployment",
    meta :=
      { name := "dying", ns := "default", uid := "du7", labels := LabelMap.empty,
        deletionTimestamp := some 2, generation := 1, ownerReferences := [] } }

/-- A cluster holding only the terminating workload `c7Deployment`. -/
def c7dCluster : DeploymentReconciler.Cluster :=
  { deployments := fun x y => if x = "default" ∧ y = "dying" then some c7Deployment else none,
    alertRules := fun _ _ => none }

/-- A concrete rule-group `AlertRule` being deleted. -/
def c7pAlertRule : AlertRule :=
  { apiVersion := "monitoring.example.com/v1", kind := "AlertRule",
    meta :=
      { name := "dying-alert", ns := "default", uid := "u7p", labels := LabelMap.empty,
        deletionTimestamp := some 4, generation := 1, ownerReferences := [] },
    spec :=
      { alert := "dyingPodDown", expr := "up == 0", severity := "critical", For := "1m",
        labels := LabelMap.empty, annotations := none, deploymentRef := none },
    status := [] }

/-- A cluster holding only the terminating `c7pAlertRule`. -/
def c7pCluster : PrometheusVariant.Cluster :=
  { alertRules := fun x y =>
      if x = "default" ∧ y = "dying-alert" then some c7pAlertRule else none,
    prometheusRules := fun _ _ => none }

/-- C7 witness: both no-op branches evaluated at concrete terminating
resources — the cluster state is returned unchanged with success. -/
theorem deletion_timestamp_noop_witness :
    DeploymentReconciler.Reconcile c7dCluster "default" "dying" =
      (c7dCluster, Except.ok ()) ∧
    PrometheusVariant.Reconcile 9 c7pCluster "default" "dying-alert" =
      (c7pCluster, Except.ok ()) :=
  ⟨deletion_timestamp_noop.1 c7dCluster "default" "dying" c7Deployment rfl rfl,
    deletion_timestamp_noop.2 9 c7pCluster "default" "dying-alert" c7pAlertRule rfl rfl⟩

/-- A reconcile call whose `AlertRule` and `PrometheusRule` are both absent
returns the cluster unchanged with success. -/
theorem prometheusVariant_reconcile_absent_noop (now : Nat)
    (c : PrometheusVariant.Cluster) (reqNs reqName : String)
    (ha : c.alertRules reqNs reqName = none)
    (hp : c.prometheusRules reqNs reqName = none) :
    PrometheusVariant.Reconcile now c reqNs reqName = (c, Except.ok ()) := by
  simp only [PrometheusVariant.Reconcile, ha, PrometheusVariant.deletePrometheusRule, hp]

/-- C3 amended: for a key whose `AlertRule` is absent, the rule-group
`AlertRuleReconciler.Reconcile` behaves exactly as claimed — it runs the
deletion fallback, succeeds whether the `PrometheusRule` existed or was
already absent, leaves the artifact absent at that key, touches no other key,
and a repeated invocation is a successful no-op; the configuration-blob
variant instead returns success without attempting any artifact deletion. -/
theorem prometheusRule_deletion_fallback (now : Nat) (c : PrometheusVariant.Cluster)
    (reqNs reqName : String) (habsent : c.alertRules reqNs reqName = none) :
    (PrometheusVariant.Reconcile now c reqNs reqName).2 = Except.ok () ∧
    (PrometheusVariant.Reconcile now c reqNs reqName).1.prometheusRules reqNs reqName =
      none ∧
    (PrometheusVariant.Reconcile now c reqNs reqName).1.alertRules = c.alertRules ∧
    (∀ x y, ¬(x = reqNs ∧ y = reqName) →
      (PrometheusVariant.Reconcile now c reqNs reqName).1.prometheusRules x y =
        c.prometheusRules x y) ∧
    PrometheusVariant.Reconcile now (PrometheusVariant.Reconcile now c reqNs reqName).1
        reqNs reqName =
      ((PrometheusVariant.Reconcile now c reqNs reqName).1, Except.ok ()) := by
  cases hpr : c.prometheusRules reqNs reqName with
  | none =>
    have hres : PrometheusVariant.Reconcile now c reqNs reqName = (c, Except.ok ()) :=
      prometheusVariant_reconcile_absent_noop now c reqNs reqName habsent hpr
    rw [hres]
    exact ⟨rfl, hpr, rfl, fun x y _ => rfl, hres⟩
  | some pr =>
    have hok : (PrometheusVariant.Reconcile now c reqNs reqName).2 = Except.ok () := by
      simp only [PrometheusVariant.Reconcile, habsent,
        PrometheusVariant.deletePrometheusRule, hpr]
    have hars : (PrometheusVariant.Reconcile now c reqNs reqName).1.alertRules =
        c.alertRules := by
      simp only [PrometheusVariant.Reconcile, habsent,
        PrometheusVariant.deletePrometheusRule, hpr]
    have hprs : (PrometheusVariant.Reconcile now c reqNs reqName).1.prometheusRules =
        c.prometheusRules.del reqNs reqName := by
      simp only [PrometheusVariant.Reconcile, habsent,
        PrometheusVariant.deletePrometheusRule, hpr]
    have hkey : (PrometheusVariant.Reconcile now c reqNs reqName).1.prometheusRules
        reqNs reqName = none := by
      rw [hprs]
      simp [Store.del]
    refine ⟨hok, hkey, hars, ?_, ?_⟩
    · intro x y hxy
      rw [hprs]
      simp [Store.del, hxy]
    · exact prometheusVariant_reconcile_absent_noop now _ reqNs reqName
        (by rw [hars]; exact habsent) hkey

/-- A concrete leftover `ConfigMap` artifact `alertrule-foo`. -/
def c3ConfigMap : ConfigMapVariant.ConfigMap :=
  { name := "alertrule-foo", ns := "default", labels := LabelMap.empty,
    ownerReferences := [], data := fun _ => none }

/-- A configuration-blob cluster with no `AlertRule` at all but a leftover
artifact for `foo`. -/
def c3Cluster : ConfigMapVariant.Cluster :=
  { alertRules := fun _ _ => none,
    configMaps := fun x y =>
      if x = "default" ∧ y = "alertrule-foo" then some c3ConfigMap else none }

/-- C3 counterexample: the configuration-blob reconciler, invoked for a key
with no backing `AlertRule` and an existing artifact of that key, returns
success without attempting any deletion — the whole cluster, the leftover
artifact included, is returned unchanged, so repeated invocation never leaves
the artifact absent. -/
theorem configMapVariant_no_deletion_fallback_counterexample :
    c3Cluster.alertRules "default" "foo" = none ∧
    (ConfigMapVariant.Reconcile 0 c3Cluster "default" "foo") =
      (c3Cluster, Except.ok ()) ∧
    ((ConfigMapVariant.Reconcile 0 c3Cluster "default" "foo").1.configMaps
      "default" "alertrule-foo").isSome = true :=
  ⟨rfl, rfl, rfl⟩

/-- A rule-group cluster with no `AlertRule` and one leftover
`PrometheusRule` named `gone-alert`. -/
def c3pCluster : PrometheusVariant.Cluster :=
  { alertRules := fun _ _ => none,
    prometheusRules := fun x y =>
      if x = "default" ∧ y = "gone-alert" then
        some
          { name := "gone-alert", ns := "default", uid := "pu3", resourceVersion := "7",
            labels := LabelMap.empty, ownerReferences := [], groupName := "g",
            rules := [] }
      else none }

/-- C3 witness: on the concrete leftover artifact the deletion fallback
succeeds, removes the artifact, and a second invocation is a successful
no-op. -/
theorem prometheusRule_deletion_fallback_witness :
    (PrometheusVariant.Reconcile 0 c3pCluster "default" "gone-alert").2 =
      Except.ok () ∧
    (PrometheusVariant.Reconcile 0 c3pCluster "default" "gone-alert").1.prometheusRules
      "default" "gone-alert" = none ∧
    PrometheusVariant.Reconcile 0
        (PrometheusVariant.Reconcile 0 c3pCluster "default" "gone-alert").1 "default"
        "gone-alert" =
      ((PrometheusVariant.Reconcile 0 c3pCluster "default" "gone-alert").1,
        Except.ok ()) := by
  have h := prometheusRule_deletion_fallback 0 c3pCluster "default" "gone-alert" rfl
  exact ⟨h.1, h.2.1, h.2.2.2.2⟩

/-- Every condition in an upserted list was already present or is the
upserted condition itself. -/
theorem mem_upsertCondition (conds : List Condition) (c x : Condition)
    (h : x ∈ upsertCondition conds c) : x ∈ conds ∨ x = c := by
  induction conds with
  | nil =>
    simp [upsertCondition] at h
    exact Or.inr h
  | cons y ys ih =>
    by_cases hy : y.condType = c.condType
    · simp only [upsertCondition, if_pos hy, List.mem_cons] at h
      rcases h with h | h
      · exact Or.inr h
      · exact Or.inl (List.mem_cons_of_mem y h)
    · simp only [upsertCondition, if_neg hy, List.mem_cons] at h
      rcases h with h | h
      · exact Or.inl (h ▸ List.mem_cons_self y ys)
      · rcases ih h with h' | h'
        · exact Or.inl (List.mem_cons_of_mem y h')
        · exact Or.inr h'

/-- No `AlertRule` in the cluster carries a condition with reason
`GenerationFailed`. -/
def noGenerationFailed (c : ConfigMapVariant.Cluster) : Prop :=
  ∀ ns n alertRule, c.alertRules ns n = some alertRule →
    ∀ cond ∈ alertRule.status, cond.reason ≠ "GenerationFailed"

/-- A reconcile of the configuration-blob variant never introduces a
`GenerationFailed` condition: its generator branch is dead, and the only
conditions it writes carry reasons `Reconciling` and `Reconciled`. -/
theorem noGenerationFailed_preserved (now : Nat) (c : ConfigMapVariant.Cluster)
    (reqNs reqName : String) (h : noGenerationFailed c) :
    noGenerationFailed (ConfigMapVariant.Reconcile now c reqNs reqName).1 := by
  cases har : c.alertRules reqNs reqName with
  | none =>
    have hres : (ConfigMapVariant.Reconcile now c reqNs reqName).1 = c := by
      simp only [ConfigMapVariant.Reconcile, har]
    rw [hres]
    exact h
  | some ar =>
    intro x y ar' hlook cond hmem
    simp only [ConfigMapVariant.Reconcile, har, ConfigMapVariant.updateStatus,
      ConfigMapVariant.generateAlertRulesYAML] at hlook
    split at hlook
    all_goals {
      simp only [Store.put] at hlook
      split at hlook
      · injection hlook with hlook'
        subst hlook'
        have hm2 := mem_upsertCondition _ _ _ hmem
        rcases hm2 with hm2 | hm2
        · have hm1 := mem_upsertCondition _ _ _ hm2
          rcases hm1 with hm1 | hm1
          · exact h reqNs reqName ar har cond hm1
          · subst hm1; simp [stampCondition]
        · subst hm2; simp [stampCondition]
      · exact h x y ar' hlook cond hmem
    }

/-- C10: `generateAlertRulesYAML` returns a nil error on every input — an
empty rules list yields exactly the `groups`/`name`/`rules` header — so the
`Degraded`/`GenerationFailed` branch of the configuration-blob reconciler is
unreachable: no reconcile can introduce a `GenerationFailed` condition into a
cluster that has none. -/
theorem generateAlertRulesYAML_total :
    (∀ alertRule : ConfigMapVariant.AlertRuleV2,
      ∃ yaml, ConfigMapVariant.generateAlertRulesYAML alertRule = Except.ok yaml) ∧
    (∀ alertRule : ConfigMapVariant.AlertRuleV2, alertRule.spec.rules = [] →
      ConfigMapVariant.generateAlertRulesYAML alertRule =
        Except.ok ("groups:\n- name: " ++ alertRule.meta.name ++ "\n  rules:\n")) ∧
    (∀ (now : Nat) (c : ConfigMapVariant.Cluster) (reqNs reqName : String),
      noGenerationFailed c →
      noGenerationFailed (ConfigMapVariant.Reconcile now c reqNs reqName).1) := by
  refine ⟨fun alertRule => ⟨_, rfl⟩, ?_, noGenerationFailed_preserved⟩
  intro alertRule h
  simp [ConfigMapVariant.generateAlertRulesYAML, h, ConfigMapVariant.joinWith,
    String.append_empty]

/-- A concrete configuration-blob `AlertRule` with an empty rules list. -/
def c10AlertRule : ConfigMapVariant.AlertRuleV2 :=
  { apiVersion := "monitoring.my.domain/v1", kind := "AlertRule",
    meta :=
      { name := "empty", ns := "default", uid := "u10", labels := LabelMap.empty,
        deletionTimestamp := none, generation := 1, ownerReferences := [] },
    spec := { rules := [], targetDeployment := "web" },
    status := [] }

/-- A cluster holding only `c10AlertRule`, with no condition anywhere. -/
def c10Cluster : ConfigMapVariant.Cluster :=
  { alertRules := fun x y => if x = "default" ∧ y = "empty" then some c10AlertRule else none,
    configMaps := fun _ _ => none }

/-- C10 witness: the generator succeeds on the concrete empty-rules resource,
produces exactly the header, and reconciling the concrete cluster introduces
no `GenerationFailed` condition. -/
theorem generateAlertRulesYAML_total_witness :
    (∃ yaml, ConfigMapVariant.generateAlertRulesYAML c10AlertRule = Except.ok yaml) ∧
    ConfigMapVariant.generateAlertRulesYAML c10AlertRule =
      Except.ok "groups:\n- name: empty\n  rules:\n" ∧
    noGenerationFailed (ConfigMapVariant.Reconcile 1 c10Cluster "default" "empty").1 := by
  have hclean : noGenerationFailed c10Cluster := by
    intro ns n arr hl cond hc
    by_cases hk : ns = "default" ∧ n = "empty"
    · simp only [c10Cluster, if_pos hk] at hl
      injection hl with he
      subst he
      simp [c10AlertRule] at hc
    · simp only [c10Cluster, if_neg hk] at hl
      cases hl
  exact ⟨generateAlertRulesYAML_total.1 c10AlertRule,
    generateAlertRulesYAML_total.2.1 c10AlertRule rfl,
    generateAlertRulesYAML_total.2.2 1 c10Cluster "default" "empty" hclean⟩
